import Mathlib

/-!
Verification of the `macro-indicators` Python client library
(`src/macro_indicators/api.py`) against its specification.

The library wraps a remote HTTP service.  We shallowly embed the module:
HTTP responses become a `Response` structure, the network becomes an
explicit `transport` function from the built request to an outcome, raised
Python exceptions become the `.error` side of an `Except`, and the class
hierarchy of the exceptions becomes an explicit enumeration with a
superclass relation.  JSON values decoded by `resp.json()` are represented
by the inductive `Json`; numeric literals are abstracted to `Int` since no
property under study inspects numeric payloads.
-/

namespace MacroIndicators

/-- Decoded JSON values, as produced by `resp.json()`. -/
inductive Json where
  | null : Json
  | bool (b : Bool) : Json
  | num (n : Int) : Json
  | str (s : String) : Json
  | arr (elems : List Json) : Json
  | obj (fields : List (String × Json)) : Json

mutual

/-- Python `repr()` on a decoded JSON value (used by `str()` inside
containers): strings are quoted, `None`/`True`/`False` spelled as in
Python. -/
def pyRepr : Json → String
  | Json.null => "None"
  | Json.bool true => "True"
  | Json.bool false => "False"
  | Json.num n => toString n
  | Json.str s => "\x27" ++ s ++ "\x27"
  | Json.arr elems => "[" ++ String.intercalate ", " (pyReprList elems) ++ "]"
  | Json.obj fields =>
      "\x7b" ++ String.intercalate ", " (pyReprFields fields) ++ "\x7d"

/-- Python repr of each element of a JSON array. -/
def pyReprList : List Json → List String
  | [] => []
  | x :: xs => pyRepr x :: pyReprList xs

/-- Python repr of each `key: value` entry of a JSON object. -/
def pyReprFields : List (String × Json) → List String
  | [] => []
  | (k, v) :: xs => ("\x27" ++ k ++ "\x27: " ++ pyRepr v) :: pyReprFields xs

end

/-- Python `str()` on a decoded JSON value: the identity on strings,
`repr`-like elsewhere. -/
def pyStr : Json → String
  | Json.str s => s
  | v => pyRepr v

/-- Python scalar values accepted as query parameters (`Dict[str, Any]`
restricted to the scalars the library actually sends). -/
inductive PyVal where
  | str (s : String) : PyVal
  | int (n : Int) : PyVal
  deriving Repr, DecidableEq

/-- One HTTP response as seen through the `requests` API:
`status_code`, the `content-type` header (empty string when absent, as
`headers.get("content-type", "")` yields), the body text `resp.text`, and
the result of `resp.json()` — `Except.error m` when parsing raises with
message `m`. -/
structure Response where
  status_code : Nat
  contentType : String
  text : String
  jsonBody : Except String Json

/-- The request `requests.get` is asked to perform: full URL, optional
query parameters, timeout in seconds. -/
structure Request where
  url : String
  params : Option (List (String × PyVal))
  timeout : Nat
  deriving Repr, DecidableEq

/-- Outcome of the network call: either `requests.get` raised a
`RequestException` whose `str()` is `msg`, or a `Response` arrived. -/
inductive TransportOutcome where
  | exn (msg : String) : TransportOutcome
  | response (r : Response) : TransportOutcome

/-- The Python exception classes that can escape `_get`, plus their
ancestors. -/
inductive ExcClass where
  | RuntimeError : ExcClass
  | MacroAPIError : ExcClass
  | BadRequest : ExcClass
  | NotFound : ExcClass
  | RequestException : ExcClass
  | JSONDecodeError : ExcClass
  deriving Repr, DecidableEq

/-- Direct superclass of each class, following the source:
`MacroAPIError(RuntimeError)`, `BadRequest(MacroAPIError)`,
`NotFound(MacroAPIError)`; `requests` defines
`JSONDecodeError(InvalidJSONError(RequestException))`, collapsed here to
its `RequestException` ancestor. -/
def superclass : ExcClass → Option ExcClass
  | ExcClass.MacroAPIError => some ExcClass.RuntimeError
  | ExcClass.BadRequest => some ExcClass.MacroAPIError
  | ExcClass.NotFound => some ExcClass.MacroAPIError
  | ExcClass.JSONDecodeError => some ExcClass.RequestException
  | _ => none

/-- Reflexive–transitive closure of `superclass`, unrolled over the finite
hierarchy: Python `isinstance` at the class level. -/
def isSubclass (c d : ExcClass) : Bool :=
  c = d ||
    match c with
    | ExcClass.BadRequest => d = ExcClass.MacroAPIError || d = ExcClass.RuntimeError
    | ExcClass.NotFound => d = ExcClass.MacroAPIError || d = ExcClass.RuntimeError
    | ExcClass.MacroAPIError => d = ExcClass.RuntimeError
    | ExcClass.JSONDecodeError => d = ExcClass.RequestException
    | _ => false

/-- A raised Python exception as it matters to callers: its class, its
message (`str(e)`), and the `status_code` attribute (`None` encoded as
`none`); `MacroAPIError.__init__` stores exactly these. -/
structure PyExc where
  cls : ExcClass
  message : String
  status_code : Option Int
  deriving Repr, DecidableEq

/-- Constant `_BASE_URL` from the source. -/
def _BASE_URL : String := "https://macro-indicators.fly.dev"

/-- Constant `_TIMEOUT` from the source. -/
def _TIMEOUT : Nat := 30

/-- Whether `needle` occurs as a contiguous run inside `hay` (character
lists). -/
def listContainsSub (needle : List Char) : List Char → Bool
  | [] => needle.isPrefixOf []
  | c :: rest => needle.isPrefixOf (c :: rest) || listContainsSub needle rest

/-- Python substring test `needle in hay` on strings. -/
def strContains (hay needle : String) : Bool :=
  listContainsSub needle.data hay.data

/-- Python `str.startswith`. -/
def strStartsWith (s pre : String) : Bool :=
  pre.data.isPrefixOf s.data

/-- Python whitespace (the characters `str.strip()` removes). -/
def pyIsSpace (c : Char) : Bool :=
  c == ' ' || c == '\t' || c == '\n' || c == '\r' || c == '\x0b' || c == '\x0c'

/-- Python `str.strip()`: drop whitespace from both ends. -/
def pyStrip (s : String) : String :=
  ⟨((s.data.dropWhile pyIsSpace).reverse.dropWhile pyIsSpace).reverse⟩

/-- The `try`-guarded JSON branch of `_extract_detail`: `some` message
when the content type contains `application/json`, the body parsed to a
dict, and the dict has a `detail` key; `none` otherwise (including when
`resp.json()` raises — the `except: pass`). -/
def detailFromJson (resp : Response) : Option String :=
  if strContains resp.contentType "application/json" then
    match resp.jsonBody with
    | Except.ok (Json.obj fields) =>
        match fields.lookup "detail" with
        | some v => some (pyStr v)
        | none => none
    | _ => none
  else none

/-- Function `_extract_detail` from the source: the JSON `detail` field when
available, else the stripped body text, else `"HTTP <status_code>"`. -/
def _extract_detail (resp : Response) : String :=
  match detailFromJson resp with
  | some s => s
  | none =>
      let t := pyStrip resp.text
      if t = "" then "HTTP " ++ toString resp.status_code else t

/-- Behavior of the requests library `Response.raise_for_status`: raises `HTTPError` exactly
when `400 <= status_code < 600`. -/
def raiseForStatusFails (status : Nat) : Bool :=
  400 ≤ status && status < 600

/-- The request `_get` builds: `f"{_BASE_URL}{path}"` with the given
params and the fixed timeout. -/
def requestOf (path : String) (params : Option (List (String × PyVal))) : Request :=
  { url := _BASE_URL ++ path, params := params, timeout := _TIMEOUT }

/-- The trailing decode of `_get` (its last three lines): parsed JSON when
the content type starts with `application/json` — where a parse failure
propagates the `JSONDecodeError` of `resp.json()` uncaught — and the
`{"raw": text}` wrapper otherwise. -/
def decodeBody (resp : Response) : Except PyExc Json :=
  if strStartsWith resp.contentType "application/json" then
    match resp.jsonBody with
    | Except.ok js => Except.ok js
    | Except.error m =>
        Except.error { cls := ExcClass.JSONDecodeError, message := m, status_code := none }
  else
    Except.ok (Json.obj [("raw", Json.str resp.text)])

/-- Function `_get` from the source.  The network is passed in as `transport`; the
function builds the request, classifies the outcome, and either returns
the decoded value or the raised exception. -/
def _get (path : String) (params : Option (List (String × PyVal)))
    (transport : Request → TransportOutcome) : Except PyExc Json :=
  let url := _BASE_URL ++ path
  match transport (requestOf path params) with
  | TransportOutcome.exn e =>
      Except.error { cls := ExcClass.MacroAPIError,
                     message := "Network error calling " ++ url ++ ": " ++ e,
                     status_code := none }
  | TransportOutcome.response resp =>
      if resp.status_code = 400 then
        Except.error { cls := ExcClass.BadRequest,
                       message := _extract_detail resp, status_code := some 400 }
      else if resp.status_code = 404 then
        Except.error { cls := ExcClass.NotFound,
                       message := _extract_detail resp, status_code := some 404 }
      else if raiseForStatusFails resp.status_code then
        Except.error { cls := ExcClass.MacroAPIError,
                       message := _extract_detail resp,
                       status_code := some (resp.status_code : Int) }
      else
        decodeBody resp

/-- Function `root()` from the source. -/
def root (transport : Request → TransportOutcome) : Except PyExc Json :=
  _get "/" none transport

/-- Function `get_country_codes()` from the source. -/
def get_country_codes (transport : Request → TransportOutcome) : Except PyExc Json :=
  _get "/country-codes" none transport

/-- Function `get_countries_with_names()` from the source. -/
def get_countries_with_names (transport : Request → TransportOutcome) : Except PyExc Json :=
  _get "/countries" none transport

/-- Function `get_indicators()` from the source. -/
def get_indicators (transport : Request → TransportOutcome) : Except PyExc Json :=
  _get "/indicators" none transport

/-- Function `get_country_data(country_code, indicator, start_year, end_year)` from
the source. -/
def get_country_data (country_code indicator : String) (start_year end_year : Int)
    (transport : Request → TransportOutcome) : Except PyExc Json :=
  _get "/data"
    (some [("country_code", PyVal.str country_code),
           ("indicator", PyVal.str indicator),
           ("start_year", PyVal.int start_year),
           ("end_year", PyVal.int end_year)])
    transport

/-- The class of the exception a call raised, `none` on success. -/
def errClass : Except PyExc Json → Option ExcClass
  | Except.error e => some e.cls
  | Except.ok _ => none

/-- The message of the exception a call raised, `none` on success. -/
def errMessage : Except PyExc Json → Option String
  | Except.error e => some e.message
  | Except.ok _ => none

/-- The exception class the status-classification branches of `_get`
assign to a status code, `none` when classification raises nothing. -/
def classifyStatus (status : Nat) : Option ExcClass :=
  if status = 400 then some ExcClass.BadRequest
  else if status = 404 then some ExcClass.NotFound
  else if raiseForStatusFails status then some ExcClass.MacroAPIError
  else none

/-- Modelled from the spec: the remote service (whose code is not part of
this repository) answers `/data`, for every valid (country, indicator,
year-range) triple, with a Time Series Response — a JSON object whose
`years` and `values` entries are arrays of equal length, where `values[i]`
belongs to `years[i]` and each value is either a number or the
absent-marker `null` (no data for that year, not zero). -/
def timeSeriesInvariant (j : Json) : Prop :=
  ∃ fields years values,
    j = Json.obj fields ∧
    fields.lookup "years" = some (Json.arr years) ∧
    fields.lookup "values" = some (Json.arr values) ∧
    years.length = values.length ∧
    ∀ v ∈ values, v = Json.null ∨ ∃ n, v = Json.num n

/-- A 1xx informational response: no JSON content type, body `"x"`. -/
def respInformational : Response :=
  { status_code := 100, contentType := "", text := "x", jsonBody := Except.error "e" }

/-- A 200 response declared as JSON whose body does not parse. -/
def respBadJson200 : Response :=
  { status_code := 200, contentType := "application/json", text := "not json",
    jsonBody := Except.error "Expecting value: line 1 column 1 (char 0)" }

/-- A 200 plain-text response. -/
def respPlain200 : Response :=
  { status_code := 200, contentType := "text/plain", text := "ok",
    jsonBody := Except.error "Expecting value: line 1 column 1 (char 0)" }

/-- A 304 Not Modified response declared as JSON with an empty body. -/
def respNotModified : Response :=
  { status_code := 304, contentType := "application/json", text := "",
    jsonBody := Except.error "Expecting value: line 1 column 1 (char 0)" }

/-- A 200 JSON response carrying the root welcome object. -/
def respJson200 : Response :=
  { status_code := 200, contentType := "application/json",
    text := "\x7b\x22message\x22: \x22Welcome to the Macroeconomy Indicators API\x22\x7d",
    jsonBody :=
      Except.ok (Json.obj [("message", Json.str "Welcome to the Macroeconomy Indicators API")]) }

/-- A 404 response with an all-whitespace non-JSON body. -/
def resp404Empty : Response :=
  { status_code := 404, contentType := "text/plain", text := "  ",
    jsonBody := Except.error "Expecting value: line 1 column 1 (char 0)" }

/-- A 404 JSON response with a `detail` field. -/
def resp404Json : Response :=
  { status_code := 404, contentType := "application/json",
    text := "\x7b\x22detail\x22: \x22Country not found\x22\x7d",
    jsonBody := Except.ok (Json.obj [("detail", Json.str "Country not found")]) }

/-- A 400 JSON response with a `detail` field. -/
def resp400Detail : Response :=
  { status_code := 400, contentType := "application/json",
    text := "\x7b\x22detail\x22: \x22start_year must be lower than end_year\x22\x7d",
    jsonBody :=
      Except.ok (Json.obj [("detail", Json.str "start_year must be lower than end_year")]) }

/-- A 400 response with no content type and an empty body. -/
def resp400Empty : Response :=
  { status_code := 400, contentType := "", text := "",
    jsonBody := Except.error "Expecting value: line 1 column 1 (char 0)" }

/-- A 503 HTML error response. -/
def resp503 : Response :=
  { status_code := 503, contentType := "text/html", text := "Service Unavailable",
    jsonBody := Except.error "Expecting value: line 1 column 1 (char 0)" }

/-- A 200 JSON time-series payload for `SWE`, with one absent year. -/
def tsJson : Json :=
  Json.obj
    [("country", Json.str "SWE"), ("country_name", Json.str "Sweden"),
     ("indicator", Json.str "M2_LCU"), ("description", Json.str "Broad money"),
     ("unit", Json.str "LCU"),
     ("years", Json.arr [Json.num 2010, Json.num 2011, Json.num 2012]),
     ("values", Json.arr [Json.num 2209655000000, Json.null, Json.num 2435958000000])]

/-- A 200 JSON response carrying `tsJson`. -/
def respTimeSeries : Response :=
  { status_code := 200, contentType := "application/json", text := "",
    jsonBody := Except.ok tsJson }

/-- A transport on which every request fails at the network level. -/
def transportDown : Request → TransportOutcome :=
  fun _ => TransportOutcome.exn "down"

/-- A transport failing exactly on the root URL and answering plain text
elsewhere; it agrees with `transportDown` at the root request only. -/
def transportDownAtRoot : Request → TransportOutcome :=
  fun r =>
    if r.url = "https://macro-indicators.fly.dev/" then TransportOutcome.exn "down"
    else TransportOutcome.response respPlain200

/-! ## Helper lemmas -/

/-- Unfolding `_get` when the transport raises. -/
theorem get_of_exn (path : String) (params : Option (List (String × PyVal)))
    (transport : Request → TransportOutcome) (msg : String)
    (h : transport (requestOf path params) = TransportOutcome.exn msg) :
    _get path params transport =
      Except.error { cls := ExcClass.MacroAPIError,
                     message := "Network error calling " ++ (_BASE_URL ++ path) ++ ": " ++ msg,
                     status_code := none } := by
  unfold _get
  rw [h]

/-- Unfolding `_get` when a response arrives. -/
theorem get_of_response (path : String) (params : Option (List (String × PyVal)))
    (transport : Request → TransportOutcome) (resp : Response)
    (h : transport (requestOf path params) = TransportOutcome.response resp) :
    _get path params transport =
      if resp.status_code = 400 then
        Except.error { cls := ExcClass.BadRequest, message := _extract_detail resp,
                       status_code := some 400 }
      else if resp.status_code = 404 then
        Except.error { cls := ExcClass.NotFound, message := _extract_detail resp,
                       status_code := some 404 }
      else if raiseForStatusFails resp.status_code then
        Except.error { cls := ExcClass.MacroAPIError, message := _extract_detail resp,
                       status_code := some (resp.status_code : Int) }
      else decodeBody resp := by
  unfold _get
  rw [h]

/-- Statuses outside the classification window reach the decode step. -/
theorem get_eq_decodeBody (path : String) (params : Option (List (String × PyVal)))
    (transport : Request → TransportOutcome) (resp : Response)
    (h : transport (requestOf path params) = TransportOutcome.response resp)
    (hs : resp.status_code < 400 ∨ 600 ≤ resp.status_code) :
    _get path params transport = decodeBody resp := by
  rw [get_of_response path params transport resp h]
  have h400 : resp.status_code ≠ 400 := by omega
  have h404 : resp.status_code ≠ 404 := by omega
  have hr : raiseForStatusFails resp.status_code = false := by
    simp [raiseForStatusFails]
    omega
  simp [h400, h404, hr]

/-- The decode step either succeeds or raises the JSON decode error. -/
theorem errClass_decodeBody (resp : Response) :
    errClass (decodeBody resp) = none ∨
      errClass (decodeBody resp) = some ExcClass.JSONDecodeError := by
  unfold decodeBody
  split
  · cases resp.jsonBody <;> simp [errClass]
  · simp [errClass]

/-- Every status in the 400–599 window is classified to some class. -/
theorem classifyStatus_some_of_classified (status : Nat)
    (h1 : 400 ≤ status) (h2 : status < 600) :
    ∃ c, classifyStatus status = some c := by
  unfold classifyStatus
  split
  · exact ⟨_, rfl⟩
  · split
    · exact ⟨_, rfl⟩
    · have : raiseForStatusFails status = true := by
        simp [raiseForStatusFails]; omega
      simp [this]

/-- On a classified status the raised class is the classified one. -/
theorem errClass_get_of_classify (path : String) (params : Option (List (String × PyVal)))
    (transport : Request → TransportOutcome) (resp : Response) (c : ExcClass)
    (h : transport (requestOf path params) = TransportOutcome.response resp)
    (hc : classifyStatus resp.status_code = some c) :
    errClass (_get path params transport) = some c := by
  rw [get_of_response path params transport resp h]
  unfold classifyStatus at hc
  split at hc <;> rename_i h1
  · simp [h1, errClass]
    exact Option.some.inj hc
  · split at hc <;> rename_i h2
    · simp [h1, h2, errClass]
      exact Option.some.inj hc
    · split at hc <;> rename_i h3
      · simp [h1, h2, h3, errClass]
        exact Option.some.inj hc
      · exact absurd hc (by simp)

/-- On an unclassified status the outcome class is that of the decode
step. -/
theorem errClass_get_of_unclassified (path : String) (params : Option (List (String × PyVal)))
    (transport : Request → TransportOutcome) (resp : Response)
    (h : transport (requestOf path params) = TransportOutcome.response resp)
    (hc : classifyStatus resp.status_code = none) :
    errClass (_get path params transport) = errClass (decodeBody resp) := by
  rw [get_of_response path params transport resp h]
  unfold classifyStatus at hc
  split at hc <;> rename_i h1
  · exact absurd hc (by simp)
  · split at hc <;> rename_i h2
    · exact absurd hc (by simp)
    · split at hc <;> rename_i h3
      · exact absurd hc (by simp)
      · simp [h1, h2, h3]

/-- A prefix is found by the substring scan. -/
theorem listContainsSub_of_isPrefixOf (n hay : List Char)
    (h : n.isPrefixOf hay = true) : listContainsSub n hay = true := by
  cases hay with
  | nil => simpa [listContainsSub] using h
  | cons c rest => simp [listContainsSub, h]

/-- A substring of the right part is a substring of the whole. -/
theorem listContainsSub_append_left (s n t : List Char)
    (h : listContainsSub n t = true) : listContainsSub n (s ++ t) = true := by
  induction s with
  | nil => simpa using h
  | cons c s ih => simp [listContainsSub, ih]

/-! ## Claims -/

/-- C1, counterexample: a response with status code 100 — outside
[200,399], so the claim demands a ServiceError carrying status 100 — makes
`_get` raise nothing at all: `requests.raise_for_status` only raises for
400–599, and the call proceeds to decoding. -/
theorem c1_counterexample :
    respInformational.status_code < 200 ∧
    errClass (_get "/" none (fun _ => TransportOutcome.response respInformational)) = none :=
  ⟨by decide, rfl⟩

/-- C1, amended: a 400 response raises `BadRequest` carrying status 400; a
404 raises `NotFound` carrying 404; any other status in [400,599] raises
the base `MacroAPIError` (ServiceError) carrying the actual status; and
every status outside [400,599] — 1xx, 2xx, 3xx and ≥ 600 alike — raises no
classification failure and proceeds to the decode step. -/
theorem c1_status_classification (path : String) (params : Option (List (String × PyVal)))
    (transport : Request → TransportOutcome) (resp : Response)
    (h : transport (requestOf path params) = TransportOutcome.response resp) :
    (resp.status_code = 400 →
      _get path params transport =
        Except.error { cls := ExcClass.BadRequest, message := _extract_detail resp,
                       status_code := some 400 }) ∧
    (resp.status_code = 404 →
      _get path params transport =
        Except.error { cls := ExcClass.NotFound, message := _extract_detail resp,
                       status_code := some 404 }) ∧
    (400 ≤ resp.status_code → resp.status_code < 600 →
      resp.status_code ≠ 400 → resp.status_code ≠ 404 →
      _get path params transport =
        Except.error { cls := ExcClass.MacroAPIError, message := _extract_detail resp,
                       status_code := some (resp.status_code : Int) }) ∧
    (resp.status_code < 400 ∨ 600 ≤ resp.status_code →
      _get path params transport = decodeBody resp) := by
  refine ⟨?_, ?_, ?_, ?_⟩
  · intro h400
    rw [get_of_response path params transport resp h]
    simp [h400]
  · intro h404
    rw [get_of_response path params transport resp h]
    have : resp.status_code ≠ 400 := by omega
    simp [h404, this]
  · intro hlo hhi h400 h404
    rw [get_of_response path params transport resp h]
    have hr : raiseForStatusFails resp.status_code = true := by
      simp [raiseForStatusFails]; omega
    simp [h400, h404, hr]
  · exact get_eq_decodeBody path params transport resp h

/-- C1, witness: a concrete 400 response with a JSON detail raises
`BadRequest` with status 400 and that detail. -/
theorem c1_status_classification_witness :
    _get "/data" none (fun _ => TransportOutcome.response resp400Detail) =
      Except.error { cls := ExcClass.BadRequest,
                     message := "start_year must be lower than end_year",
                     status_code := some 400 } := by
  have h := (c1_status_classification "/data" none
    (fun _ => TransportOutcome.response resp400Detail) resp400Detail rfl).1 (by decide)
  exact h.trans (by rfl)

/-- C2: for every response whose status is in the classification window
400–599 the raised message is `_extract_detail`; the extracted detail is
the Python str of the `detail` value when the content type is JSON and the
body parses to a mapping with a `detail` key (for a string detail the
message equals it exactly, since `pyStr` is the identity on strings);
otherwise the stripped raw body; and the literal `HTTP <status>` string
when the stripped body is empty. -/
theorem c2_error_message_policy (path : String) (params : Option (List (String × PyVal)))
    (transport : Request → TransportOutcome) (resp : Response)
    (h : transport (requestOf path params) = TransportOutcome.response resp)
    (h1 : 400 ≤ resp.status_code) (h2 : resp.status_code < 600) :
    errMessage (_get path params transport) = some (_extract_detail resp) ∧
    (∀ fields v, strContains resp.contentType "application/json" = true →
        resp.jsonBody = Except.ok (Json.obj fields) →
        fields.lookup "detail" = some v →
        _extract_detail resp = pyStr v) ∧
    (∀ s, pyStr (Json.str s) = s) ∧
    (detailFromJson resp = none → pyStrip resp.text ≠ "" →
        _extract_detail resp = pyStrip resp.text) ∧
    (detailFromJson resp = none → pyStrip resp.text = "" →
        _extract_detail resp = "HTTP " ++ toString resp.status_code) := by
  refine ⟨?_, ?_, fun s => rfl, ?_, ?_⟩
  · rw [get_of_response path params transport resp h]
    by_cases e400 : resp.status_code = 400
    · simp [e400, errMessage]
    · by_cases e404 : resp.status_code = 404
      · simp [e400, e404, errMessage]
      · have hr : raiseForStatusFails resp.status_code = true := by
          simp [raiseForStatusFails]; omega
        simp [e400, e404, hr, errMessage]
  · intro fields v hct hjs hlk
    simp [_extract_detail, detailFromJson, hct, hjs, hlk]
  · intro hd ht
    simp [_extract_detail, hd, ht]
  · intro hd ht
    simp [_extract_detail, hd, ht]

/-- C2, witness: a 404 without a parseable JSON body and an all-whitespace
text yields the literal message `HTTP 404`. -/
theorem c2_error_message_policy_witness :
    errMessage (_get "/data" none (fun _ => TransportOutcome.response resp404Empty)) =
      some "HTTP 404" := by
  have h := (c2_error_message_policy "/data" none
    (fun _ => TransportOutcome.response resp404Empty) resp404Empty rfl
    (by decide) (by decide)).1
  exact h.trans (by rfl)

/-- C3: for every 2xx response, if the content type starts with
`application/json` the caller receives the parsed JSON structure as-is,
and otherwise exactly the single-field wrapper with key `raw` holding the
body text. -/
theorem c3_success_decoding (path : String) (params : Option (List (String × PyVal)))
    (transport : Request → TransportOutcome) (resp : Response)
    (h : transport (requestOf path params) = TransportOutcome.response resp)
    (h1 : 200 ≤ resp.status_code) (h2 : resp.status_code ≤ 299) :
    (∀ js, strStartsWith resp.contentType "application/json" = true →
        resp.jsonBody = Except.ok js → _get path params transport = Except.ok js) ∧
    (strStartsWith resp.contentType "application/json" = false →
        _get path params transport = Except.ok (Json.obj [("raw", Json.str resp.text)])) := by
  have hd := get_eq_decodeBody path params transport resp h (Or.inl (by omega))
  constructor
  · intro js hct hjs
    rw [hd]
    simp [decodeBody, hct, hjs]
  · intro hct
    rw [hd]
    simp [decodeBody, hct]

/-- C3, witness: a concrete 200 JSON response is returned parsed and
unchanged. -/
theorem c3_success_decoding_witness :
    _get "/" none (fun _ => TransportOutcome.response respJson200) =
      Except.ok (Json.obj [("message", Json.str "Welcome to the Macroeconomy Indicators API")]) := by
  have h := (c3_success_decoding "/" none
    (fun _ => TransportOutcome.response respJson200) respJson200 rfl
    (by decide) (by decide)).1
  exact h (Json.obj [("message", Json.str "Welcome to the Macroeconomy Indicators API")])
    (by rfl) (by rfl)

/-- C4, counterexample: a 200 response declared `application/json` whose
body fails to parse makes the call raise the `JSONDecodeError` coming out
of `resp.json()` — which is not a subclass of `MacroAPIError`, so not the
generic ServiceError the claim promises: the final `return resp.json()` of
`_get` sits outside any try block. -/
theorem c4_counterexample :
    _get "/" none (fun _ => TransportOutcome.response respBadJson200) =
      Except.error { cls := ExcClass.JSONDecodeError,
                     message := "Expecting value: line 1 column 1 (char 0)",
                     status_code := none } ∧
    isSubclass ExcClass.JSONDecodeError ExcClass.MacroAPIError = false :=
  ⟨rfl, rfl⟩

/-- C4, amended: a 2xx response declared JSON whose body fails to parse
does fail the call — no failure is silently swallowed — but with the
uncaught `JSONDecodeError` of the JSON parser, an exception outside the
`MacroAPIError` taxonomy, rather than the generic ServiceError. -/
theorem c4_decode_failure_uncaught (path : String) (params : Option (List (String × PyVal)))
    (transport : Request → TransportOutcome) (resp : Response)
    (h : transport (requestOf path params) = TransportOutcome.response resp)
    (h1 : 200 ≤ resp.status_code) (h2 : resp.status_code ≤ 299)
    (hct : strStartsWith resp.contentType "application/json" = true) :
    (∀ m, resp.jsonBody = Except.error m →
      _get path params transport =
        Except.error { cls := ExcClass.JSONDecodeError, message := m, status_code := none } ∧
      errClass (_get path params transport) ≠ none) ∧
    isSubclass ExcClass.JSONDecodeError ExcClass.MacroAPIError = false := by
  have hd := get_eq_decodeBody path params transport resp h (Or.inl (by omega))
  refine ⟨?_, by decide⟩
  intro m hm
  have heq : _get path params transport =
      Except.error { cls := ExcClass.JSONDecodeError, message := m, status_code := none } := by
    rw [hd]
    simp [decodeBody, hct, hm]
  refine ⟨heq, ?_⟩
  rw [heq]
  simp [errClass]

/-- C4, witness: the amended behavior at a concrete unparseable 200 JSON
response. -/
theorem c4_decode_failure_uncaught_witness :
    _get "/country-codes" none (fun _ => TransportOutcome.response respBadJson200) =
      Except.error { cls := ExcClass.JSONDecodeError,
                     message := "Expecting value: line 1 column 1 (char 0)",
                     status_code := none } :=
  ((c4_decode_failure_uncaught "/country-codes" none
    (fun _ => TransportOutcome.response respBadJson200) respBadJson200 rfl
    (by decide) (by decide) (by rfl)).1
    "Expecting value: line 1 column 1 (char 0)" (by rfl)).1

/-- C5: a transport-level failure raises the base `MacroAPIError` — not
`BadRequest` or `NotFound` — with no status code, and its message contains
both the message of the transport exception and the attempted target URL
(the fixed base endpoint concatenated with the path). -/
theorem c5_transport_error (path : String) (params : Option (List (String × PyVal)))
    (transport : Request → TransportOutcome) (msg : String)
    (h : transport (requestOf path params) = TransportOutcome.exn msg) :
    _get path params transport =
      Except.error { cls := ExcClass.MacroAPIError,
                     message := "Network error calling " ++ (_BASE_URL ++ path) ++ ": " ++ msg,
                     status_code := none } ∧
    ExcClass.MacroAPIError ≠ ExcClass.BadRequest ∧
    ExcClass.MacroAPIError ≠ ExcClass.NotFound ∧
    strContains ("Network error calling " ++ (_BASE_URL ++ path) ++ ": " ++ msg) msg = true ∧
    strContains ("Network error calling " ++ (_BASE_URL ++ path) ++ ": " ++ msg)
      (_BASE_URL ++ path) = true ∧
    (requestOf path params).url = _BASE_URL ++ path := by
  refine ⟨get_of_exn path params transport msg h, by decide, by decide, ?_, ?_, rfl⟩
  · unfold strContains
    have hd : ("Network error calling " ++ (_BASE_URL ++ path) ++ ": " ++ msg).data
        = "Network error calling ".data ++
            ((_BASE_URL ++ path).data ++ (": ".data ++ msg.data)) := by
      simp [String.data_append]
    rw [hd]
    refine listContainsSub_append_left _ _ _ ?_
    refine listContainsSub_append_left _ _ _ ?_
    refine listContainsSub_append_left _ _ _ ?_
    exact listContainsSub_of_isPrefixOf _ _ (by simp)
  · unfold strContains
    have hd : ("Network error calling " ++ (_BASE_URL ++ path) ++ ": " ++ msg).data
        = "Network error calling ".data ++
            ((_BASE_URL ++ path).data ++ (": ".data ++ msg.data)) := by
      simp [String.data_append]
    rw [hd]
    refine listContainsSub_append_left _ _ _ ?_
    exact listContainsSub_of_isPrefixOf _ _ (by simp)

/-- C5, witness: a concrete network failure on the root path. -/
theorem c5_transport_error_witness :
    _get "/" none transportDown =
      Except.error { cls := ExcClass.MacroAPIError,
                     message := "Network error calling https://macro-indicators.fly.dev/: down",
                     status_code := none } := by
  have h := (c5_transport_error "/" none transportDown "down" rfl).1
  exact h.trans (by rfl)

/-- C6: each of the five public operations is exactly `_get` applied to
its fixed path and query parameters; the built request targets the fixed
base endpoint concatenated with the path, with timeout 30; and `_get`
consults the transport only at that one request, so it has no independent
logic beyond the Request Executor. -/
theorem c6_thin_wrappers :
    (∀ transport, root transport = _get "/" none transport) ∧
    (∀ transport, get_country_codes transport = _get "/country-codes" none transport) ∧
    (∀ transport, get_countries_with_names transport = _get "/countries" none transport) ∧
    (∀ transport, get_indicators transport = _get "/indicators" none transport) ∧
    (∀ c i sy ey transport,
      get_country_data c i sy ey transport =
        _get "/data"
          (some [("country_code", PyVal.str c), ("indicator", PyVal.str i),
                 ("start_year", PyVal.int sy), ("end_year", PyVal.int ey)]) transport) ∧
    (∀ path params, requestOf path params =
      { url := "https://macro-indicators.fly.dev" ++ path, params := params, timeout := 30 }) ∧
    (∀ path params t1 t2, t1 (requestOf path params) = t2 (requestOf path params) →
      _get path params t1 = _get path params t2) := by
  refine ⟨fun _ => rfl, fun _ => rfl, fun _ => rfl, fun _ => rfl,
          fun _ _ _ _ _ => rfl, fun _ _ => rfl, ?_⟩
  intro path params t1 t2 hagree
  unfold _get
  rw [hagree]

/-- C6, witness: two transports agreeing on the root request give `_get`
equal results, although they differ elsewhere. -/
theorem c6_thin_wrappers_witness :
    _get "/" none transportDown = _get "/" none transportDownAtRoot :=
  c6_thin_wrappers.2.2.2.2.2.2 "/" none transportDown transportDownAtRoot rfl

/-- C7: `BadRequest` and `NotFound` are the two immediate specializations
of the single base `MacroAPIError`; every failure value carries a message
and an optional integer status code by construction of `PyExc`; and every
failure `_get` raises by classification (everything except the decode-step
`JSONDecodeError`) is an instance of the base class. -/
theorem c7_error_hierarchy :
    superclass ExcClass.BadRequest = some ExcClass.MacroAPIError ∧
    superclass ExcClass.NotFound = some ExcClass.MacroAPIError ∧
    isSubclass ExcClass.BadRequest ExcClass.MacroAPIError = true ∧
    isSubclass ExcClass.NotFound ExcClass.MacroAPIError = true ∧
    (∀ path params transport e, _get path params transport = Except.error e →
      isSubclass e.cls ExcClass.MacroAPIError = true ∨ e.cls = ExcClass.JSONDecodeError) := by
  refine ⟨rfl, rfl, rfl, rfl, ?_⟩
  intro path params transport e h
  cases htr : transport (requestOf path params) with
  | exn m =>
    rw [get_of_exn path params transport m htr] at h
    obtain rfl := Except.error.inj h
    left; rfl
  | response resp =>
    rw [get_of_response path params transport resp htr] at h
    split at h
    · obtain rfl := Except.error.inj h
      left; rfl
    · split at h
      · obtain rfl := Except.error.inj h
        left; rfl
      · split at h
        · obtain rfl := Except.error.inj h
          left; rfl
        · unfold decodeBody at h
          split at h
          · cases hjb : resp.jsonBody with
            | ok js =>
              rw [hjb] at h
              exact absurd h (by simp)
            | error m =>
              rw [hjb] at h
              obtain rfl := Except.error.inj h
              right; rfl
          · exact absurd h (by simp)

/-- C7, witness: the failure raised on a concrete 400 response is handled
by the base class. -/
theorem c7_error_hierarchy_witness :
    isSubclass (PyExc.mk ExcClass.BadRequest "HTTP 400" (some 400)).cls
        ExcClass.MacroAPIError = true ∨
      (PyExc.mk ExcClass.BadRequest "HTTP 400" (some 400)).cls = ExcClass.JSONDecodeError :=
  c7_error_hierarchy.2.2.2.2 "/" none (fun _ => TransportOutcome.response resp400Empty)
    (PyExc.mk ExcClass.BadRequest "HTTP 400" (some 400)) (by rfl)

/-- C8 (server side modelled from the spec): when the remote service
answers `/data` for a valid triple with a 2xx JSON Time Series Response
satisfying the spec invariant, `get_country_data` hands that structure to
the caller unchanged, so the returned `years` and `values` have equal
length with the `null` absent-marker distinct from a zero value. -/
theorem c8_time_series_invariant (c i : String) (sy ey : Int)
    (transport : Request → TransportOutcome) (resp : Response) (js : Json)
    (h : transport (requestOf "/data"
          (some [("country_code", PyVal.str c), ("indicator", PyVal.str i),
                 ("start_year", PyVal.int sy), ("end_year", PyVal.int ey)]))
        = TransportOutcome.response resp)
    (h1 : 200 ≤ resp.status_code) (h2 : resp.status_code ≤ 299)
    (hct : strStartsWith resp.contentType "application/json" = true)
    (hjs : resp.jsonBody = Except.ok js)
    (hts : timeSeriesInvariant js) :
    get_country_data c i sy ey transport = Except.ok js ∧
    timeSeriesInvariant js ∧
    Json.null ≠ Json.num 0 := by
  refine ⟨?_, hts, fun hh => Json.noConfusion hh⟩
  have hd := get_eq_decodeBody _ _ transport resp h (Or.inl (by omega))
  unfold get_country_data
  rw [hd]
  simp [decodeBody, hct, hjs]

/-- C8, witness: a concrete conforming time-series response for SWE passes
through unchanged. -/
theorem c8_time_series_invariant_witness :
    get_country_data "SWE" "M2_LCU" 2010 2012
      (fun _ => TransportOutcome.response respTimeSeries) = Except.ok tsJson :=
  (c8_time_series_invariant "SWE" "M2_LCU" 2010 2012
    (fun _ => TransportOutcome.response respTimeSeries) respTimeSeries tsJson rfl
    (by decide) (by decide) (by rfl) (by rfl)
    (by
      refine ⟨_, [Json.num 2010, Json.num 2011, Json.num 2012],
        [Json.num 2209655000000, Json.null, Json.num 2435958000000], rfl, ?_, ?_, rfl, ?_⟩
      · rfl
      · rfl
      · intro v hv
        simp at hv
        rcases hv with rfl | rfl | rfl
        · exact Or.inr ⟨_, rfl⟩
        · exact Or.inl rfl
        · exact Or.inr ⟨_, rfl⟩)).1

/-- C9, counterexample: two responses with the same status code 200 and
different bodies do not raise the same class — one raises the decode-step
`JSONDecodeError`, the other raises nothing — so the failure kind is not
determined solely by the status code. -/
theorem c9_counterexample :
    respBadJson200.status_code = respPlain200.status_code ∧
    respBadJson200.contentType ≠ respPlain200.contentType ∧
    errClass (_get "/" none (fun _ => TransportOutcome.response respBadJson200)) =
      some ExcClass.JSONDecodeError ∧
    errClass (_get "/" none (fun _ => TransportOutcome.response respPlain200)) = none :=
  ⟨rfl, by decide, rfl, rfl⟩

/-- C9, amended: for any two responses with the same status code, if both
raise a failure they raise the same class, and within the classification
window 400–599 the raised class is fully determined by the status code
alone; only on the decode path can the body and content type decide
whether a (JSON decode) failure is raised at all. -/
theorem c9_kind_status_only (p1 : String) (q1 : Option (List (String × PyVal)))
    (t1 : Request → TransportOutcome) (r1 : Response)
    (p2 : String) (q2 : Option (List (String × PyVal)))
    (t2 : Request → TransportOutcome) (r2 : Response)
    (h1 : t1 (requestOf p1 q1) = TransportOutcome.response r1)
    (h2 : t2 (requestOf p2 q2) = TransportOutcome.response r2)
    (hs : r1.status_code = r2.status_code) :
    (∀ c1 c2, errClass (_get p1 q1 t1) = some c1 →
        errClass (_get p2 q2 t2) = some c2 → c1 = c2) ∧
    (400 ≤ r1.status_code → r1.status_code < 600 →
      errClass (_get p1 q1 t1) = errClass (_get p2 q2 t2)) := by
  constructor
  · intro c1 c2 hc1 hc2
    cases hcs : classifyStatus r1.status_code with
    | some c =>
      have e1 := errClass_get_of_classify p1 q1 t1 r1 c h1 hcs
      have e2 := errClass_get_of_classify p2 q2 t2 r2 c h2 (by rw [← hs]; exact hcs)
      rw [e1] at hc1
      rw [e2] at hc2
      rw [← Option.some.inj hc1, ← Option.some.inj hc2]
    | none =>
      have e1 := errClass_get_of_unclassified p1 q1 t1 r1 h1 hcs
      have e2 := errClass_get_of_unclassified p2 q2 t2 r2 h2 (by rw [← hs]; exact hcs)
      rw [e1] at hc1
      rw [e2] at hc2
      rcases errClass_decodeBody r1 with hd1 | hd1
      · rw [hd1] at hc1
        exact absurd hc1 (by simp)
      rcases errClass_decodeBody r2 with hd2 | hd2
      · rw [hd2] at hc2
        exact absurd hc2 (by simp)
      rw [hd1] at hc1
      rw [hd2] at hc2
      rw [← Option.some.inj hc1, ← Option.some.inj hc2]
  · intro hlo hhi
    obtain ⟨c, hc⟩ := classifyStatus_some_of_classified r1.status_code hlo hhi
    rw [errClass_get_of_classify p1 q1 t1 r1 c h1 hc,
        errClass_get_of_classify p2 q2 t2 r2 c h2 (by rw [← hs]; exact hc)]

/-- C9, witness: two 404 responses with different bodies and content types
raise the same class. -/
theorem c9_kind_status_only_witness :
    errClass (_get "/" none (fun _ => TransportOutcome.response resp404Empty)) =
      errClass (_get "/data" none (fun _ => TransportOutcome.response resp404Json)) :=
  (c9_kind_status_only "/" none (fun _ => TransportOutcome.response resp404Empty) resp404Empty
    "/data" none (fun _ => TransportOutcome.response resp404Json) resp404Json
    rfl rfl rfl).2 (by decide) (by decide)

/-- C10, counterexample: a 304 response — status strictly below 400 —
declared `application/json` with an empty body raises the decode-step
`JSONDecodeError` instead of returning a decoded payload, so a below-400
status does not guarantee that no failure is raised. -/
theorem c10_counterexample :
    respNotModified.status_code < 400 ∧
    errClass (_get "/" none (fun _ => TransportOutcome.response respNotModified)) =
      some ExcClass.JSONDecodeError :=
  ⟨by decide, rfl⟩

/-- C10, amended: every response with status strictly below 400 — 1xx and
3xx included — raises no classification failure and goes through the
success decoding path: the parsed JSON when a JSON-declared body parses,
the raw-text wrapper for a non-JSON content type; only a JSON-declared
body that fails to parse still raises (the decode error). -/
theorem c10_below_400_decodes (path : String) (params : Option (List (String × PyVal)))
    (transport : Request → TransportOutcome) (resp : Response)
    (h : transport (requestOf path params) = TransportOutcome.response resp)
    (hs : resp.status_code < 400) :
    _get path params transport = decodeBody resp ∧
    (∀ js, strStartsWith resp.contentType "application/json" = true →
        resp.jsonBody = Except.ok js → _get path params transport = Except.ok js) ∧
    (strStartsWith resp.contentType "application/json" = false →
        _get path params transport = Except.ok (Json.obj [("raw", Json.str resp.text)])) := by
  have hd := get_eq_decodeBody path params transport resp h (Or.inl hs)
  refine ⟨hd, ?_, ?_⟩
  · intro js hct hjs
    rw [hd]
    simp [decodeBody, hct, hjs]
  · intro hct
    rw [hd]
    simp [decodeBody, hct]

/-- C10, witness: a concrete 1xx response returns the raw-text wrapper
without raising. -/
theorem c10_below_400_decodes_witness :
    _get "/" none (fun _ => TransportOutcome.response respInformational) =
      Except.ok (Json.obj [("raw", Json.str "x")]) :=
  (c10_below_400_decodes "/" none
    (fun _ => TransportOutcome.response respInformational) respInformational rfl
    (by decide)).2.2 (by rfl)

end MacroIndicators
